import Mathlib

/-
Verification of the scan-orchestration / de-duplication logic of the
qr-scanner-next repository.

The repository contains several near-duplicate revisions of one React
component, `QRScanner`.  The logic embedded here:

  * `src/src/components/QRScanner.tsx` — the revision with the
    `processScannedCode` session-dedup kernel, the global 1000 ms
    `pauseScanning` suppression, the jsQR interval loop, the ZXing
    `decodeFromVideoDevice` callback and the static-image retry ladder
    of `handleFileUpload`.  Embedded in namespace `QRScannerTsx`.
  * `src/src/app/page.tsx` — `handleScanSuccess`, the page-level
    Result Sink keeping the 10 most recent payloads.  Namespace `PageTsx`.
  * `src/unnamed/part_001` — the revision whose `processScannedCode`
    adds a 5000 ms cooldown (last payload + timestamp) in front of the
    session-set check, and whose `scanCode` animation-frame loop carries
    the `isScanningRef` reentrancy guard, the frame/interval cadence gate
    and the try/catch/finally around `decodeFromCanvas`.  Namespace `Part001`.
  * `src/unnamed/part_002` — the revision whose `handleFileUpload` runs the
    retry ladder twice (original image, then grayscale) with two decoder
    invocations (ZXing + jsQR) per iteration, and whose camera callback is
    the inline dedup/accept gated on `isScanning`.  Namespace `Part002`.

The decoders (jsQR, ZXing) are external black boxes; they are passed to the
embedded orchestration as oracle functions.  Machine time (`Date.now()`,
`performance.now()`) is passed in as a natural number; JS subtraction of
timestamps is modelled on `Int`.  JS `Set<string>` is modelled as an
insertion-ordered duplicate-free `List String`; `arr.slice(-n)` keeps the
last `n` elements; `arr.slice(0, n)` is `List.take n`.
-/

namespace QrScan

/-- JS `arr.slice(-n)`: the last `n` elements of the array (the whole array
when it is shorter than `n`). -/
def jsSliceLast (n : Nat) (l : List String) : List String :=
  l.drop (l.length - n)

/-- JS `Set.add` on an insertion-ordered set modelled as a duplicate-free
list: re-adding an existing element leaves the set (and its order) unchanged,
a new element is appended at the end. -/
def setAdd (l : List String) (c : String) : List String :=
  if l.contains c then l else l ++ [c]

/-- Abstract description of the canvas contents during the static-image
upload path.  The pixel level is out of scope (the decoders are black
boxes); each constructor names one deterministic conditioning of the
uploaded image that the code can draw onto the canvas. -/
inductive CanvasImage where
  /-- the uploaded image drawn as-is (scaled to the bounded canvas size) -/
  | original : CanvasImage
  /-- grayscale + contrast boost of the original (QRScanner.tsx lines 328-337) -/
  | grayContrast : CanvasImage
  /-- the canvas after the attempt-`k` transform of the retry ladder: the
  original image redrawn rotated by `k`·90° for `k` = 1..4, or scaled by
  1.2 / 0.8 / 1.5 for `k` = 5 / 6 / 7 -/
  | transformAt (k : Nat) : CanvasImage
  /-- per-pixel grayscale of a previous canvas state (part_002 lines 291-298) -/
  | grayscaleOf (c : CanvasImage) : CanvasImage
deriving DecidableEq, Repr

/-- The canvas transform applied when `attempts > 0` inside the retry loop
(QRScanner.tsx lines 386-398, part_002 lines 256-268): rotation for
`attempts` ≤ 4, scaling for `attempts` 5..7; in every case the original
image is redrawn, so the result depends only on `attempts`. -/
def transformCanvas (attempts : Nat) : CanvasImage :=
  CanvasImage.transformAt attempts

namespace QRScannerTsx

/-- The orchestration state of the `QRScanner` component in
`src/src/components/QRScanner.tsx`: the session scan set
(`sessionScannedCodesRef`), the displayed scan-history set (`scannedCodes`,
a JS `Set` bounded to 10), the recent-results list (`lastScannedCodes`,
bounded to 5), the `isScanning` flag, the pending `pauseScanning` resume
timer (absolute firing time of the `setTimeout`) and the `processingCodeRef`
reentrancy flag. -/
structure ScannerState where
  sessionScannedCodes : List String
  scannedCodes : List String
  lastScannedCodes : List String
  isScanning : Bool
  resumeTimer : Option Nat
  processingCode : Bool
deriving DecidableEq, Repr

/-- Component state right after camera initialization (lines 12-24 and the
session-set reset at line 100). -/
def initState : ScannerState :=
  { sessionScannedCodes := []
    scannedCodes := []
    lastScannedCodes := []
    isScanning := true
    resumeTimer := none
    processingCode := false }

/-- `processScannedCode` (QRScanner.tsx lines 27-50) together with the
`pauseScanning` it invokes on acceptance (lines 53-61).  `now` is the
instant at which the 1000 ms resume timer is anchored.  Returns the new
state and the list of payloads forwarded to `onScanSuccess` (the Result
Sink) by this invocation.  The `processingCodeRef` guard drops the call
when an invocation is already in flight; otherwise the flag is set for the
duration of the body and cleared in the `finally`, so its net value is
unchanged. -/
def processScannedCode (s : ScannerState) (code : String) (now : Nat) :
    ScannerState × List String :=
  if s.processingCode then (s, [])
  else if s.sessionScannedCodes.contains code then (s, [])
  else
    ({ sessionScannedCodes := setAdd s.sessionScannedCodes code
       scannedCodes := jsSliceLast 10 (setAdd s.scannedCodes code)
       lastScannedCodes := jsSliceLast 5 (s.lastScannedCodes ++ [code])
       isScanning := false
       resumeTimer := some (now + 1000)
       processingCode := false }, [code])

/-- The `setTimeout` body scheduled by `pauseScanning` (lines 58-60): fires
1000 ms after the pause and re-enables scanning. -/
def resumeScanning (s : ScannerState) : ScannerState :=
  { s with isScanning := true, resumeTimer := none }

/-- The `decodeFromVideoDevice` callback (lines 196-213): a reported scan
error is logged and dropped; a decoded result is handed to
`processScannedCode` only when `isScanning` holds. -/
def decodeVideoCallback (s : ScannerState) (error : Bool)
    (result : Option String) (now : Nat) : ScannerState × List String :=
  if error then (s, [])
  else
    match result with
    | some code => if s.isScanning then processScannedCode s code now else (s, [])
    | none => (s, [])

/-- `scanWithJsQR` (lines 155-184): early-returns when `isScanning` is
false (before decoding); otherwise the frame is drawn and jsQR is run —
`decoded` is the jsQR verdict on the current frame (`none` = no QR symbol
found). -/
def scanWithJsQR (s : ScannerState) (decoded : Option String) (now : Nat) :
    ScannerState × List String :=
  if s.isScanning then
    match decoded with
    | some code => processScannedCode s code now
    | none => (s, [])
  else (s, [])

/-- A sequence of decode results handed to `processScannedCode` one by one
(each with the wall-clock instant of its processing), collecting every
payload forwarded to the Result Sink, in order. -/
def runProcess (s : ScannerState) : List (String × Nat) → ScannerState × List String
  | [] => (s, [])
  | (code, now) :: rest =>
      let r1 := processScannedCode s code now
      let r2 := runProcess r1.1 rest
      (r2.1, r1.2 ++ r2.2)

/-- The inline dedup/accept block of `handleFileUpload` (lines 339-359 for
the jsQR hit and lines 406-429 for the ZXing hit): identical to the body of
`processScannedCode` but without the `processingCodeRef` guard. -/
def acceptUploadCode (s : ScannerState) (code : String) (now : Nat) :
    ScannerState × List String :=
  if s.sessionScannedCodes.contains code then (s, [])
  else
    ({ sessionScannedCodes := setAdd s.sessionScannedCodes code
       scannedCodes := jsSliceLast 10 (setAdd s.scannedCodes code)
       lastScannedCodes := jsSliceLast 5 (s.lastScannedCodes ++ [code])
       isScanning := false
       resumeTimer := some (now + 1000)
       processingCode := s.processingCode }, [code])

/-- Fixed attempt budget of the ZXing retry loop (line 382). -/
def maxAttempts : Nat := 8

/-- The ZXing retry loop of `handleFileUpload` (lines 380-403), written with
`budget = maxAttempts - attempts` as the structural recursion measure so
that the loop condition `attempts < maxAttempts` becomes `budget > 0`.
`dataUrl` is the `canvas.toDataURL()` snapshot taken once at line 383,
BEFORE the loop; each iteration with `attempts > 0` redraws the transformed
image onto the canvas, but the decoder is invoked on `dataUrl` every time.
`zx img` models `decodeFromImageUrl` on image contents `img`: `Except.ok`
is a decoded payload, `Except.error` a thrown exception (ZXing throws
`NotFoundException` when no symbol is present), which the `catch {}`
swallows before `attempts++`.  Returns the decode result, the number of
`decodeFromImageUrl` invocations performed, and the final canvas
contents. -/
def ladderGo (zx : CanvasImage → Except Unit String) (dataUrl : CanvasImage) :
    Nat → Nat → CanvasImage → Option String × Nat × CanvasImage
  | _, 0, canvas => (none, 0, canvas)
  | attempts, budget + 1, canvas =>
      let canvas1 := if 0 < attempts then transformCanvas attempts else canvas
      match zx dataUrl with
      | Except.ok r => (some r, 1, canvas1)
      | Except.error _ =>
          let rest := ladderGo zx dataUrl (attempts + 1) budget canvas1
          (rest.1, rest.2.1 + 1, rest.2.2)

/-- The whole ZXing retry loop, entered with `attempts = 0`. -/
def zxingLadder (zx : CanvasImage → Except Unit String)
    (dataUrl canvas : CanvasImage) : Option String × Nat × CanvasImage :=
  ladderGo zx dataUrl 0 maxAttempts canvas

/-- The decode pipeline of `handleFileUpload` (lines 295-437), starting from
the image drawn on the canvas: jsQR on the original; on failure the canvas
is grayscale/contrast boosted in place and jsQR retried; a jsQR hit is
accepted inline.  Otherwise the `dataUrl` snapshot of the (now
gray-contrast) canvas is taken and the ZXing retry ladder runs on it; a hit
is accepted inline, and total failure sets the user-visible "could not
detect" error.  `jsqr img` is the jsQR verdict on canvas contents `img`.
Returns (state, payloads forwarded to the Result Sink, errorShown). -/
def handleFileUpload (s : ScannerState) (jsqr : CanvasImage → Option String)
    (zx : CanvasImage → Except Unit String) (now : Nat) :
    ScannerState × List String × Bool :=
  match jsqr CanvasImage.original with
  | some code =>
      let r := acceptUploadCode s code now
      (r.1, r.2, false)
  | none =>
      match jsqr CanvasImage.grayContrast with
      | some code =>
          let r := acceptUploadCode s code now
          (r.1, r.2, false)
      | none =>
          let dataUrl := CanvasImage.grayContrast
          let lr := zxingLadder zx dataUrl CanvasImage.grayContrast
          match lr.1 with
          | some code =>
              let r := acceptUploadCode s code now
              (r.1, r.2, false)
          | none => (s, [], true)

end QRScannerTsx

namespace PageTsx

/-- `handleScanSuccess` of `src/src/app/page.tsx` (lines 14-16): the
page-level Result Sink prepends the new payload and keeps the first 10
entries (`[decodedText, ...prev].slice(0, 10)`). -/
def handleScanSuccess (prev : List String) (decodedText : String) : List String :=
  (decodedText :: prev).take 10

end PageTsx

namespace Part001

/-- The orchestration state of the `src/unnamed/part_001` revision: the
displayed history (`scannedCodes`, bounded to 12), the cooldown state
(`lastScannedCode` / `lastScanTimestamp`, lines 16-17), the session scan
set, the `processingCodeRef` flag, the frame counter and last-decode clock
of the cadence gate and the `isScanningRef` reentrancy guard (lines
24-27). -/
structure OrchState where
  scannedCodes : List String
  lastScannedCode : String
  lastScanTimestamp : Nat
  sessionScannedCodes : List String
  processingCode : Bool
  frameCount : Nat
  lastScanTime : Nat
  isScanningRef : Bool
deriving DecidableEq, Repr

/-- State after mount / `resetAllData` (lines 51-72). -/
def initState : OrchState :=
  { scannedCodes := []
    lastScannedCode := ""
    lastScanTimestamp := 0
    sessionScannedCodes := []
    processingCode := false
    frameCount := 0
    lastScanTime := 0
    isScanningRef := false }

/-- Cooldown window of part_001 (line 87): 5000 ms. -/
def cooldownWindow : Int := 5000

/-- `processScannedCode` (part_001 lines 81-108).  `now` models the
`Date.now()` taken at line 85.  In order: the `processingCodeRef` guard;
the cooldown check (same payload as the last accepted one within 5000 ms);
the session-set check; then acceptance — session-set add, cooldown-state
update, history push (skipped if the payload is already displayed, with
eviction to the last 12), and the `onScanSuccess` forward.  The
`cleanupMemory()` call only schedules a deferred `prev.slice(-12)` on the
history, which is the identity on the history this code maintains (always
at most 12 entries), so it is not modelled as a separate effect.  Returns
the new state and the payloads forwarded to the Result Sink. -/
def processScannedCode (s : OrchState) (code : String) (now : Nat) :
    OrchState × List String :=
  if s.processingCode then (s, [])
  else if code = s.lastScannedCode ∧
      (now : Int) - (s.lastScanTimestamp : Int) < cooldownWindow then (s, [])
  else if s.sessionScannedCodes.contains code then (s, [])
  else
    ({ scannedCodes :=
         if s.scannedCodes.contains code then s.scannedCodes
         else jsSliceLast 12 (s.scannedCodes ++ [code])
       lastScannedCode := code
       lastScanTimestamp := now
       sessionScannedCodes := setAdd s.sessionScannedCodes code
       processingCode := false
       frameCount := s.frameCount
       lastScanTime := s.lastScanTime
       isScanningRef := s.isScanningRef }, [code])

/-- The history-clear button (part_001 lines 551-559): empties the displayed
history and the session set; the cooldown fields are NOT touched. -/
def clearHistory (s : OrchState) : OrchState :=
  { s with scannedCodes := [], sessionScannedCodes := [] }

/-- `stopCamera` (part_001 lines 141-159, with an active stream): clears
the session scan set and resets the reentrancy flags; the displayed history
and the cooldown fields persist.  The same session-set-only clear happens
at `initializeCamera` (line 118) and `setupCamera` (line 189). -/
def stopCamera (s : OrchState) : OrchState :=
  { s with sessionScannedCodes := [], isScanningRef := false,
           processingCode := false }

/-- A sequence of decode results handed to `processScannedCode` one by one. -/
def runProcess (s : OrchState) : List (String × Nat) → OrchState × List String
  | [] => (s, [])
  | (code, now) :: rest =>
      let r1 := processScannedCode s code now
      let r2 := runProcess r1.1 rest
      (r2.1, r1.2 ++ r2.2)

/-- What one awaited `decodeFromCanvas` invocation does: return a decoded
payload, throw `NotFoundException` (no symbol in the frame), or throw some
other error.  The catch at part_001 lines 314-317 distinguishes the two
exception kinds only for console logging. -/
inductive DecodeOutcome where
  | found (code : String) : DecodeOutcome
  | notFoundExn : DecodeOutcome
  | otherExn : DecodeOutcome
deriving DecidableEq, Repr

/-- Cadence constants of `scanCode` (part_001 lines 301-302). -/
def scanIntervalMs : Int := 800

/-- Frame sampling divisor of `scanCode` (part_001 line 302). -/
def frameInterval : Nat := 3

/-- One invocation of the `scanCode` animation-frame callback (part_001
lines 277-324), with the awaited decode collapsed into the step.  `tPerf`
models the `performance.now()` of line 297, `tDate` the `Date.now()` seen
inside `processScannedCode`, `outcome` what the `decodeFromCanvas` call
does.  Structure: the reentrancy guard (`isScanningRef`) drops the tick;
otherwise the frame counter advances and the cadence gate (every 3rd frame,
at least 800 ms since the last completed decode) decides whether to decode.
On a decoded payload, `processScannedCode` runs and `lastScanTimeRef` is
updated; a thrown exception is caught and only logged; the `finally`
clears `isScanningRef`.  Returns (state, forwarded payloads, rescheduled)
where rescheduled records the unconditional `requestAnimationFrame`
re-arm. -/
def scanCode (s : OrchState) (outcome : DecodeOutcome) (tPerf tDate : Nat) :
    OrchState × List String × Bool :=
  if s.isScanningRef then (s, [], true)
  else
    let s1 := { s with frameCount := s.frameCount + 1 }
    if s1.frameCount % frameInterval = 0 ∧
        (tPerf : Int) - (s1.lastScanTime : Int) ≥ scanIntervalMs then
      match outcome with
      | DecodeOutcome.found code =>
          let r := processScannedCode { s1 with isScanningRef := true } code tDate
          ({ r.1 with lastScanTime := tPerf, isScanningRef := false }, r.2, true)
      | DecodeOutcome.notFoundExn =>
          ({ s1 with isScanningRef := false }, [], true)
      | DecodeOutcome.otherExn =>
          ({ s1 with isScanningRef := false }, [], true)
    else (s1, [], true)

/-- Interleaved small-step view of the scan loop, used to reason about
reentrancy: `outstanding` counts the `decodeFromCanvas` invocations that
have been started and not yet completed. -/
structure LoopState where
  orch : OrchState
  outstanding : Nat
deriving DecidableEq, Repr

/-- Loop state at session start: no decode in flight. -/
def loopInit : LoopState := { orch := initState, outstanding := 0 }

/-- A cadence tick (`requestAnimationFrame` firing): the prefix of
`scanCode` up to and including starting the awaited decode.  A tick that
arrives while `isScanningRef` is set is dropped unchanged (part_001 lines
278-281) — there is no queue; a tick whose cadence gate fails only advances
the frame counter; otherwise `isScanningRef` is set and a decode starts. -/
def tick (s : LoopState) (tPerf : Nat) : LoopState :=
  if s.orch.isScanningRef then s
  else
    let o := { s.orch with frameCount := s.orch.frameCount + 1 }
    if o.frameCount % frameInterval = 0 ∧
        (tPerf : Int) - (o.lastScanTime : Int) ≥ scanIntervalMs then
      { orch := { o with isScanningRef := true }, outstanding := s.outstanding + 1 }
    else { orch := o, outstanding := s.outstanding }

/-- Completion of the in-flight decode: the rest of the `scanCode`
try/catch/finally (part_001 lines 308-320). -/
def finish (s : LoopState) (outcome : DecodeOutcome) (tPerf tDate : Nat) :
    LoopState × List String :=
  match outcome with
  | DecodeOutcome.found code =>
      let r := processScannedCode s.orch code tDate
      ({ orch := { r.1 with lastScanTime := tPerf, isScanningRef := false }
         outstanding := s.outstanding - 1 }, r.2)
  | DecodeOutcome.notFoundExn =>
      ({ orch := { s.orch with isScanningRef := false }
         outstanding := s.outstanding - 1 }, [])
  | DecodeOutcome.otherExn =>
      ({ orch := { s.orch with isScanningRef := false }
         outstanding := s.outstanding - 1 }, [])

/-- States the scan loop can reach from session start: any interleaving of
cadence ticks and completions of decodes that are actually in flight. -/
inductive Reachable : LoopState → Prop where
  | init : Reachable loopInit
  | tick {s : LoopState} (tPerf : Nat) :
      Reachable s → Reachable (tick s tPerf)
  | finish {s : LoopState} (outcome : DecodeOutcome) (tPerf tDate : Nat) :
      Reachable s → 0 < s.outstanding →
      Reachable (finish s outcome tPerf tDate).1

end Part001

namespace Part002

/-- Fixed attempt budget of each retry loop in part_002 (line 242). -/
def maxAttempts : Nat := 8

/-- One retry loop of `handleFileUpload` of part_002 (lines 254-288, repeated
verbatim at lines 301-335), with `budget = maxAttempts - attempts` as the
structural measure for the `attempts < maxAttempts` condition.  Each
iteration with `attempts > 0` redraws the transformed original image onto
the canvas; ZXing (`zx`, throwing on a miss — swallowed by `catch {}`) is
invoked on the `dataUrl` snapshot taken before the loop, then jsQR (`jq`)
on the live canvas contents.  Returns (result, number of ZXing invocations,
number of jsQR invocations, final canvas contents). -/
def ladderGo (zx : CanvasImage → Except Unit String)
    (jq : CanvasImage → Option String) (dataUrl : CanvasImage) :
    Nat → Nat → CanvasImage → Option String × Nat × Nat × CanvasImage
  | _, 0, canvas => (none, 0, 0, canvas)
  | attempts, budget + 1, canvas =>
      let canvas1 := if 0 < attempts then transformCanvas attempts else canvas
      match zx dataUrl with
      | Except.ok r => (some r, 1, 0, canvas1)
      | Except.error _ =>
          match jq canvas1 with
          | some r => (some r, 1, 1, canvas1)
          | none =>
              let rest := ladderGo zx jq dataUrl (attempts + 1) budget canvas1
              (rest.1, rest.2.1 + 1, rest.2.2.1 + 1, rest.2.2.2)

/-- The decode pipeline of `handleFileUpload` of part_002 (lines 239-336):
the retry loop on the drawn original (canvas = dataUrl snapshot =
original); if it finds nothing, the current canvas is grayscaled in place,
the `dataUrl` snapshot is retaken (line 299), `attempts` is reset and the
same loop runs again.  Returns (result, total ZXing invocations, total jsQR
invocations). -/
def uploadDecodePipeline (zx : CanvasImage → Except Unit String)
    (jq : CanvasImage → Option String) : Option String × Nat × Nat :=
  let p1 := ladderGo zx jq CanvasImage.original 0 maxAttempts CanvasImage.original
  match p1.1 with
  | some r => (some r, p1.2.1, p1.2.2.1)
  | none =>
      let canvasG := CanvasImage.grayscaleOf p1.2.2.2
      let p2 := ladderGo zx jq canvasG 0 maxAttempts canvasG
      (p2.1, p1.2.1 + p2.2.1, p1.2.2.1 + p2.2.2.1)

/-- The `decodeFromVideoDevice` callback of part_002 (lines 112-151): a
reported error is dropped; a decoded result is handled only while
`isScanning` holds, through the inline session-dedup / history-push /
`onScanSuccess` / `pauseScanning` block (no `processingCodeRef` guard in
this revision).  The component state has the same shape as the
QRScanner.tsx revision, so `QRScannerTsx.ScannerState` is reused
(`processingCode` is simply never read or written here). -/
def decodeVideoCallback (s : QRScannerTsx.ScannerState) (error : Bool)
    (result : Option String) (now : Nat) :
    QRScannerTsx.ScannerState × List String :=
  if error then (s, [])
  else
    match result with
    | some code =>
        if s.isScanning then
          if s.sessionScannedCodes.contains code then (s, [])
          else
            ({ sessionScannedCodes := setAdd s.sessionScannedCodes code
               scannedCodes := jsSliceLast 10 (setAdd s.scannedCodes code)
               lastScannedCodes := jsSliceLast 5 (s.lastScannedCodes ++ [code])
               isScanning := false
               resumeTimer := some (now + 1000)
               processingCode := s.processingCode }, [code])
        else (s, [])
    | none => (s, [])

end Part002

/-- A ZXing oracle that decodes the uploaded image only on the canvas
produced by the attempt-2 transform of the retry ladder (the 180° rotation)
and throws `NotFoundException` on every other conditioning. -/
def rot180OnlyDecoder : CanvasImage → Except Unit String
  | CanvasImage.transformAt 2 => Except.ok "PAYLOAD-180"
  | _ => Except.error ()

/-- A jsQR oracle that never finds a symbol in this image. -/
def jsqrNever : CanvasImage → Option String := fun _ => none

/-- A ZXing oracle that throws on every input. -/
def zxAlwaysThrows : CanvasImage → Except Unit String := fun _ => Except.error ()

/-- A ZXing oracle that decodes every conditioning of the image at once. -/
def zxImmediate : CanvasImage → Except Unit String := fun _ => Except.ok "Z"

/-- Witness input for the session-dedup claim: a session that has already
accepted payload A. -/
def c1State : QRScannerTsx.ScannerState :=
  { QRScannerTsx.initState with sessionScannedCodes := ["A"] }

/-- Witness input for the session-dedup claim: a decode-result sequence with
repeated payloads. -/
def c1Events : List (String × Nat) :=
  [("A", 0), ("B", 5), ("A", 10), ("B", 20)]

/-- Witness input for the cooldown claim: payload A was accepted at t = 1000. -/
def c2State : Part001.OrchState :=
  { Part001.initState with
      lastScannedCode := "A"
      lastScanTimestamp := 1000
      sessionScannedCodes := ["A"]
      scannedCodes := ["A"] }

/-- Witness input for the history-bound claim: eleven distinct payloads. -/
def c3Events : List (String × Nat) :=
  [("p0", 0), ("p1", 1), ("p2", 2), ("p3", 3), ("p4", 4), ("p5", 5),
   ("p6", 6), ("p7", 7), ("p8", 8), ("p9", 9), ("p10", 10)]

/-- Witness input for the acceptance-effects claim: a session that accepted
payload A at t = 1000 and now sees payload B. -/
def c6State : Part001.OrchState :=
  { Part001.initState with
      scannedCodes := ["A"]
      sessionScannedCodes := ["A"]
      lastScannedCode := "A"
      lastScanTimestamp := 1000 }

/-- Counterexample input for the acceptance-effects claim: payload A is
accepted from the fresh session, then the camera is stopped — the session
set is cleared while the displayed history and the cooldown fields
persist. -/
def c6CexState : Part001.OrchState :=
  Part001.stopCamera (Part001.processScannedCode Part001.initState "A" 0).1

/-- Witness input for the reentrancy claim: a loop state with one decode in
flight. -/
def busyLoopState : Part001.LoopState :=
  { orch := { Part001.initState with isScanningRef := true }, outstanding := 1 }

/-- Witness input for the pause-suppression claim: a component inside the
1000 ms pause window. -/
def c10State : QRScannerTsx.ScannerState :=
  { QRScannerTsx.initState with isScanning := false }

/- ------------------------------------------------------------------ -/
/- Supporting lemmas                                                   -/
/- ------------------------------------------------------------------ -/

theorem take_append_take (n : Nat) (a b : List String) :
    (a ++ b.take n).take n = (a ++ b).take n := by
  rw [List.take_append_eq_append_take, List.take_append_eq_append_take,
    List.take_take, Nat.min_eq_left (Nat.sub_le n a.length)]

theorem reverse_jsSliceLast (n : Nat) (l : List String) :
    (jsSliceLast n l).reverse = l.reverse.take n := by
  rw [jsSliceLast, List.reverse_drop, List.take_eq_take]
  simp only [List.length_reverse]
  omega

theorem jsSliceLast_append (n : Nat) (a b : List String) :
    jsSliceLast n (jsSliceLast n a ++ b) = jsSliceLast n (a ++ b) := by
  have h : (jsSliceLast n (jsSliceLast n a ++ b)).reverse
      = (jsSliceLast n (a ++ b)).reverse := by
    rw [reverse_jsSliceLast, List.reverse_append, reverse_jsSliceLast,
      take_append_take, ← List.reverse_append, reverse_jsSliceLast]
  exact List.reverse_injective h

theorem length_jsSliceLast (n : Nat) (l : List String) :
    (jsSliceLast n l).length = min n l.length := by
  rw [jsSliceLast, List.length_drop]
  omega

theorem jsSliceLast_of_length_le {n : Nat} {l : List String}
    (h : l.length ≤ n) : jsSliceLast n l = l := by
  rw [jsSliceLast, Nat.sub_eq_zero_of_le h, List.drop_zero]

theorem setAdd_of_not_mem {l : List String} {c : String} (h : c ∉ l) :
    setAdd l c = l ++ [c] := by
  rw [setAdd, if_neg]
  simpa using h

/-- Case analysis for the QRScanner.tsx dedup kernel: an invocation either
discards the payload leaving the state untouched, or accepts a payload that
was not in the session set, appends it to the set and forwards exactly it. -/
theorem qrscanner_process_elim (s : QRScannerTsx.ScannerState) (code : String)
    (now : Nat) :
    QRScannerTsx.processScannedCode s code now = (s, []) ∨
    (code ∉ s.sessionScannedCodes ∧
      (QRScannerTsx.processScannedCode s code now).2 = [code] ∧
      (QRScannerTsx.processScannedCode s code now).1.sessionScannedCodes
        = s.sessionScannedCodes ++ [code] ∧
      (QRScannerTsx.processScannedCode s code now).1.lastScannedCodes
        = jsSliceLast 5 (s.lastScannedCodes ++ [code])) := by
  by_cases h1 : s.processingCode
  · left
    simp [QRScannerTsx.processScannedCode, h1]
  · by_cases h2 : code ∈ s.sessionScannedCodes
    · left
      simp [QRScannerTsx.processScannedCode, h1, h2]
    · right
      refine ⟨h2, ?_, ?_, ?_⟩ <;>
        simp [QRScannerTsx.processScannedCode, h1, h2, setAdd_of_not_mem h2]

/-- Case analysis for the part_001 dedup kernel (with its cooldown branch). -/
theorem part001_process_elim (s : Part001.OrchState) (code : String)
    (now : Nat) :
    Part001.processScannedCode s code now = (s, []) ∨
    (code ∉ s.sessionScannedCodes ∧
      (Part001.processScannedCode s code now).2 = [code] ∧
      (Part001.processScannedCode s code now).1.sessionScannedCodes
        = s.sessionScannedCodes ++ [code]) := by
  by_cases h1 : s.processingCode
  · left
    simp [Part001.processScannedCode, h1]
  · by_cases h2 : code = s.lastScannedCode ∧
        (now : Int) - (s.lastScanTimestamp : Int) < Part001.cooldownWindow
    · left
      simp [Part001.processScannedCode, h1, h2]
    · by_cases h3 : code ∈ s.sessionScannedCodes
      · left
        simp [Part001.processScannedCode, h1, h2, h3]
      · right
        refine ⟨h3, ?_, ?_⟩ <;>
          simp [Part001.processScannedCode, h1, h2, h3, setAdd_of_not_mem h3]

theorem qrscanner_runProcess_cons (s : QRScannerTsx.ScannerState)
    (code : String) (now : Nat) (rest : List (String × Nat)) :
    QRScannerTsx.runProcess s ((code, now) :: rest)
      = ((QRScannerTsx.runProcess (QRScannerTsx.processScannedCode s code now).1 rest).1,
         (QRScannerTsx.processScannedCode s code now).2
           ++ (QRScannerTsx.runProcess (QRScannerTsx.processScannedCode s code now).1 rest).2) :=
  rfl

theorem part001_runProcess_cons (s : Part001.OrchState)
    (code : String) (now : Nat) (rest : List (String × Nat)) :
    Part001.runProcess s ((code, now) :: rest)
      = ((Part001.runProcess (Part001.processScannedCode s code now).1 rest).1,
         (Part001.processScannedCode s code now).2
           ++ (Part001.runProcess (Part001.processScannedCode s code now).1 rest).2) :=
  rfl

/-- A payload already in the session set is never forwarded by any further
processing (QRScanner.tsx kernel). -/
theorem qrscanner_runProcess_not_emitted (s : QRScannerTsx.ScannerState)
    (evs : List (String × Nat)) (a : String)
    (ha : a ∈ s.sessionScannedCodes) :
    a ∉ (QRScannerTsx.runProcess s evs).2 := by
  induction evs generalizing s with
  | nil => simp [QRScannerTsx.runProcess]
  | cons ev rest ih =>
      obtain ⟨code, now⟩ := ev
      rcases qrscanner_process_elim s code now with h | ⟨hmem, he, hset, -⟩
      · rw [qrscanner_runProcess_cons, h]
        simpa using ih s ha
      · rw [qrscanner_runProcess_cons, he]
        intro hc
        rcases List.mem_append.1 hc with hc | hc
        · have : a = code := by simpa using hc
          exact hmem (this ▸ ha)
        · exact ih _ (hset ▸ List.mem_append_left _ ha) hc

/-- A payload already in the session set is never forwarded by any further
processing (part_001 kernel). -/
theorem part001_runProcess_not_emitted (s : Part001.OrchState)
    (evs : List (String × Nat)) (a : String)
    (ha : a ∈ s.sessionScannedCodes) :
    a ∉ (Part001.runProcess s evs).2 := by
  induction evs generalizing s with
  | nil => simp [Part001.runProcess]
  | cons ev rest ih =>
      obtain ⟨code, now⟩ := ev
      rcases part001_process_elim s code now with h | ⟨hmem, he, hset⟩
      · rw [part001_runProcess_cons, h]
        simpa using ih s ha
      · rw [part001_runProcess_cons, he]
        intro hc
        rcases List.mem_append.1 hc with hc | hc
        · have : a = code := by simpa using hc
          exact hmem (this ▸ ha)
        · exact ih _ (hset ▸ List.mem_append_left _ ha) hc

theorem qrscanner_runProcess_count (s : QRScannerTsx.ScannerState)
    (evs : List (String × Nat)) (a : String) :
    ((QRScannerTsx.runProcess s evs).2).count a ≤ 1 := by
  induction evs generalizing s with
  | nil => simp [QRScannerTsx.runProcess]
  | cons ev rest ih =>
      obtain ⟨code, now⟩ := ev
      rcases qrscanner_process_elim s code now with h | ⟨hmem, he, hset, -⟩
      · rw [qrscanner_runProcess_cons, h]
        simpa using ih s
      · rw [qrscanner_runProcess_cons, he]
        by_cases hac : a = code
        · subst hac
          have hnot : a ∉ (QRScannerTsx.runProcess
              (QRScannerTsx.processScannedCode s a now).1 rest).2 :=
            qrscanner_runProcess_not_emitted _ rest a
              (hset ▸ List.mem_append_right _ (by simp))
          simp [List.count_eq_zero.2 hnot]
        · have : ([code].count a) = 0 := by
            simp [List.count_eq_zero, hac]
          simp only [List.count_append, this, Nat.zero_add]
          exact ih _

theorem part001_runProcess_count (s : Part001.OrchState)
    (evs : List (String × Nat)) (a : String) :
    ((Part001.runProcess s evs).2).count a ≤ 1 := by
  induction evs generalizing s with
  | nil => simp [Part001.runProcess]
  | cons ev rest ih =>
      obtain ⟨code, now⟩ := ev
      rcases part001_process_elim s code now with h | ⟨hmem, he, hset⟩
      · rw [part001_runProcess_cons, h]
        simpa using ih s
      · rw [part001_runProcess_cons, he]
        by_cases hac : a = code
        · subst hac
          have hnot : a ∉ (Part001.runProcess
              (Part001.processScannedCode s a now).1 rest).2 :=
            part001_runProcess_not_emitted _ rest a
              (hset ▸ List.mem_append_right _ (by simp))
          simp [List.count_eq_zero.2 hnot]
        · have : ([code].count a) = 0 := by
            simp [List.count_eq_zero, hac]
          simp only [List.count_append, this, Nat.zero_add]
          exact ih _

/-- The recent-results list after a run is the 5-bounded suffix of the
previous list extended by everything forwarded during the run. -/
theorem qrscanner_runProcess_lastScannedCodes (s : QRScannerTsx.ScannerState)
    (evs : List (String × Nat)) (hlen : s.lastScannedCodes.length ≤ 5) :
    (QRScannerTsx.runProcess s evs).1.lastScannedCodes
      = jsSliceLast 5 (s.lastScannedCodes ++ (QRScannerTsx.runProcess s evs).2) := by
  induction evs generalizing s with
  | nil =>
      simp [QRScannerTsx.runProcess, jsSliceLast_of_length_le hlen]
  | cons ev rest ih =>
      obtain ⟨code, now⟩ := ev
      rcases qrscanner_process_elim s code now with h | ⟨-, he, -, hlast⟩
      · rw [qrscanner_runProcess_cons, h]
        simpa using ih s hlen
      · rw [qrscanner_runProcess_cons, he]
        have hlen1 : (QRScannerTsx.processScannedCode s code now).1.lastScannedCodes.length ≤ 5 := by
          rw [hlast, length_jsSliceLast]
          omega
        rw [ih _ hlen1, hlast, jsSliceLast_append]
        simp

/-- The page-level Result Sink keeps the first 10 of the reversed forwarded
sequence: folding `handleScanSuccess` from any list of at most 10 entries. -/
theorem foldl_handleScanSuccess (l : List String) :
    ∀ acc : List String, acc.length ≤ 10 →
      List.foldl PageTsx.handleScanSuccess acc l = (l.reverse ++ acc).take 10 := by
  induction l with
  | nil =>
      intro acc hacc
      simp [List.take_of_length_le hacc]
  | cons c t ih =>
      intro acc hacc
      have h1 : (PageTsx.handleScanSuccess acc c).length ≤ 10 := by
        simp only [PageTsx.handleScanSuccess, List.length_take]
        omega
      calc List.foldl PageTsx.handleScanSuccess acc (c :: t)
      _ = List.foldl PageTsx.handleScanSuccess (PageTsx.handleScanSuccess acc c) t := rfl
      _ = (t.reverse ++ (c :: acc).take 10).take 10 := ih _ h1
      _ = (t.reverse ++ (c :: acc)).take 10 := take_append_take 10 _ _
      _ = ((c :: t).reverse ++ acc).take 10 := by
          simp [List.append_assoc]

/-- When the decode of the snapshot throws, one retry-loop step finds
nothing itself and the loop continues on the next attempt. -/
theorem ladderGo_error_result (zx : CanvasImage → Except Unit String)
    (d : CanvasImage) (u : Unit) (h : zx d = Except.error u)
    (attempts budget : Nat) (canvas : CanvasImage) :
    (QRScannerTsx.ladderGo zx d attempts (budget + 1) canvas).1
      = (QRScannerTsx.ladderGo zx d (attempts + 1) budget
          (if 0 < attempts then transformCanvas attempts else canvas)).1 := by
  simp [QRScannerTsx.ladderGo, h]

/-- When the decode of the snapshot throws, one retry-loop step adds one
decoder invocation to those of the remaining attempts. -/
theorem ladderGo_error_calls (zx : CanvasImage → Except Unit String)
    (d : CanvasImage) (u : Unit) (h : zx d = Except.error u)
    (attempts budget : Nat) (canvas : CanvasImage) :
    (QRScannerTsx.ladderGo zx d attempts (budget + 1) canvas).2.1
      = (QRScannerTsx.ladderGo zx d (attempts + 1) budget
          (if 0 < attempts then transformCanvas attempts else canvas)).2.1 + 1 := by
  simp [QRScannerTsx.ladderGo, h]

/-- When every decode of the snapshot throws, the retry loop uses its whole
budget, finds nothing and performs exactly `budget` invocations. -/
theorem ladderGo_all_error (zx : CanvasImage → Except Unit String)
    (d : CanvasImage) (u : Unit) (h : zx d = Except.error u) :
    ∀ (budget attempts : Nat) (canvas : CanvasImage),
      (QRScannerTsx.ladderGo zx d attempts budget canvas).1 = none ∧
      (QRScannerTsx.ladderGo zx d attempts budget canvas).2.1 = budget := by
  intro budget
  induction budget with
  | zero =>
      intro attempts canvas
      simp [QRScannerTsx.ladderGo]
  | succ b ih =>
      intro attempts canvas
      rw [ladderGo_error_result zx d u h, ladderGo_error_calls zx d u h]
      refine ⟨(ih _ _).1, ?_⟩
      rw [(ih _ _).2]

/-- The retry loop performs at most `budget` decoder invocations. -/
theorem ladderGo_calls_le (zx : CanvasImage → Except Unit String)
    (d : CanvasImage) :
    ∀ (budget attempts : Nat) (canvas : CanvasImage),
      (QRScannerTsx.ladderGo zx d attempts budget canvas).2.1 ≤ budget := by
  intro budget
  induction budget with
  | zero =>
      intro attempts canvas
      simp [QRScannerTsx.ladderGo]
  | succ b ih =>
      intro attempts canvas
      cases h : zx d with
      | error u =>
          rw [ladderGo_error_calls zx d u h]
          have := ih (attempts + 1)
            (if 0 < attempts then transformCanvas attempts else canvas)
          omega
      | ok r =>
          simp [QRScannerTsx.ladderGo, h]

/-- Each retry loop of part_002 performs at most `budget` ZXing and
`budget` jsQR invocations. -/
theorem part002_ladderGo_calls_le (zx : CanvasImage → Except Unit String)
    (jq : CanvasImage → Option String) (d : CanvasImage) :
    ∀ (budget attempts : Nat) (canvas : CanvasImage),
      (Part002.ladderGo zx jq d attempts budget canvas).2.1 ≤ budget ∧
      (Part002.ladderGo zx jq d attempts budget canvas).2.2.1 ≤ budget := by
  intro budget
  induction budget with
  | zero =>
      intro attempts canvas
      simp [Part002.ladderGo]
  | succ b ih =>
      intro attempts canvas
      cases hz : zx d with
      | ok r =>
          simp [Part002.ladderGo, hz]
      | error u =>
          cases hj : jq (if 0 < attempts then transformCanvas attempts else canvas) with
          | some r =>
              simp [Part002.ladderGo, hz, hj]
          | none =>
              have := ih (attempts + 1)
                (if 0 < attempts then transformCanvas attempts else canvas)
              simp only [Part002.ladderGo, hz, hj]
              omega

/-- The in-flight-decode counter of any reachable loop state agrees with
the `isScanningRef` flag. -/
theorem loop_outstanding_eq_flag {s : Part001.LoopState}
    (h : Part001.Reachable s) :
    s.outstanding = (if s.orch.isScanningRef then 1 else 0) := by
  induction h with
  | init => rfl
  | @tick s tPerf hr ih =>
      by_cases hb : s.orch.isScanningRef
      · simpa [Part001.tick, hb] using ih
      · rw [Part001.tick, if_neg (by simp [hb])]
        by_cases hg : ({ s.orch with frameCount := s.orch.frameCount + 1 }).frameCount
              % Part001.frameInterval = 0 ∧
            (tPerf : Int) - (({ s.orch with
              frameCount := s.orch.frameCount + 1 }).lastScanTime : Int)
              ≥ Part001.scanIntervalMs
        · rw [if_pos hg]
          simp [hb] at ih
          simp
          omega
        · rw [if_neg hg]
          simpa [hb] using ih
  | @finish s outcome tPerf tDate hr hpos ih =>
      have hflag : s.orch.isScanningRef = true := by
        by_contra hc
        simp [hc] at ih
        omega
      cases outcome <;> simp [Part001.finish, hflag] at ih ⊢ <;> omega

/- ------------------------------------------------------------------ -/
/- Claim theorems                                                      -/
/- ------------------------------------------------------------------ -/

/-- Claim C1: within one capture session each distinct payload string is
forwarded to the Result Sink (onScanSuccess) at most once — for every
sequence of decode results handed to `processScannedCode`, a payload
already present in the session scan set is discarded and never re-emitted,
and no payload is ever forwarded twice.  Proved for both the QRScanner.tsx
and the part_001 revision of the kernel. -/
theorem claim1_session_payload_forwarded_at_most_once :
    (∀ (s : QRScannerTsx.ScannerState) (evs : List (String × Nat)) (a : String),
        (a ∈ s.sessionScannedCodes → a ∉ (QRScannerTsx.runProcess s evs).2) ∧
        ((QRScannerTsx.runProcess s evs).2).count a ≤ 1) ∧
    (∀ (s : Part001.OrchState) (evs : List (String × Nat)) (a : String),
        (a ∈ s.sessionScannedCodes → a ∉ (Part001.runProcess s evs).2) ∧
        ((Part001.runProcess s evs).2).count a ≤ 1) :=
  ⟨fun s evs a => ⟨qrscanner_runProcess_not_emitted s evs a,
      qrscanner_runProcess_count s evs a⟩,
    fun s evs a => ⟨part001_runProcess_not_emitted s evs a,
      part001_runProcess_count s evs a⟩⟩

/-- Witness for C1 at a concrete session and decode sequence. -/
theorem claim1_witness :
    ("A" ∈ c1State.sessionScannedCodes ∧
      "A" ∉ (QRScannerTsx.runProcess c1State c1Events).2) ∧
    ((QRScannerTsx.runProcess c1State c1Events).2).count "B" ≤ 1 :=
  ⟨⟨by decide,
    (claim1_session_payload_forwarded_at_most_once.1 c1State c1Events "A").1
      (by decide)⟩,
   (claim1_session_payload_forwarded_at_most_once.1 c1State c1Events "B").2⟩

/-- Claim C2: a decode result whose payload equals the last accepted one is
discarded when less than the 5000 ms cooldown window has elapsed — no state
is updated and nothing reaches the Result Sink — and the suppression holds
just the same after the history-clear button emptied the session scan set
(the cooldown fields survive the clear). -/
theorem claim2_cooldown_discards_identical_payload
    (s : Part001.OrchState) (code : String) (now : Nat)
    (hflag : s.processingCode = false)
    (hcode : code = s.lastScannedCode)
    (htime : (now : Int) - (s.lastScanTimestamp : Int) < Part001.cooldownWindow) :
    Part001.processScannedCode s code now = (s, []) ∧
    Part001.processScannedCode (Part001.clearHistory s) code now
      = (Part001.clearHistory s, []) := by
  constructor
  · simp [Part001.processScannedCode, hflag, hcode, htime]
  · simp [Part001.processScannedCode, Part001.clearHistory, hflag, hcode, htime]

/-- Witness for C2: payload A accepted at t = 1000 is seen again at
t = 2000, both before and after the history clear. -/
theorem claim2_witness :
    (c2State.processingCode = false ∧
      "A" = c2State.lastScannedCode ∧
      ((2000 : Nat) : Int) - (c2State.lastScanTimestamp : Int) < Part001.cooldownWindow) ∧
    Part001.processScannedCode c2State "A" 2000 = (c2State, []) ∧
    Part001.processScannedCode (Part001.clearHistory c2State) "A" 2000
      = (Part001.clearHistory c2State, []) :=
  ⟨⟨rfl, by decide, by decide⟩,
   claim2_cooldown_discards_identical_payload c2State "A" 2000 rfl (by decide)
     (by decide)⟩

/-- Claim C3: after more than the configured bound of payloads have been
accepted, the recent-results list of the component holds exactly the last
5 forwarded payloads in acceptance order (length exactly 5), and the
page-level list built by `handleScanSuccess` holds exactly the last 10,
newest first (length exactly 10). -/
theorem claim3_history_holds_most_recent (evs : List (String × Nat)) :
    ((QRScannerTsx.runProcess QRScannerTsx.initState evs).1.lastScannedCodes
        = jsSliceLast 5 (QRScannerTsx.runProcess QRScannerTsx.initState evs).2) ∧
    (5 < (QRScannerTsx.runProcess QRScannerTsx.initState evs).2.length →
      (QRScannerTsx.runProcess QRScannerTsx.initState evs).1.lastScannedCodes.length = 5) ∧
    (List.foldl PageTsx.handleScanSuccess []
        (QRScannerTsx.runProcess QRScannerTsx.initState evs).2
      = (jsSliceLast 10 (QRScannerTsx.runProcess QRScannerTsx.initState evs).2).reverse) ∧
    (10 < (QRScannerTsx.runProcess QRScannerTsx.initState evs).2.length →
      (List.foldl PageTsx.handleScanSuccess []
        (QRScannerTsx.runProcess QRScannerTsx.initState evs).2).length = 10) := by
  have h1 := qrscanner_runProcess_lastScannedCodes QRScannerTsx.initState evs
    (by simp [QRScannerTsx.initState])
  have hE1 : (QRScannerTsx.runProcess QRScannerTsx.initState evs).1.lastScannedCodes
      = jsSliceLast 5 (QRScannerTsx.runProcess QRScannerTsx.initState evs).2 := by
    simpa [QRScannerTsx.initState] using h1
  have hfold := foldl_handleScanSuccess
    ((QRScannerTsx.runProcess QRScannerTsx.initState evs).2) [] (by simp)
  refine ⟨hE1, ?_, ?_, ?_⟩
  · intro hlen
    rw [hE1, length_jsSliceLast]
    omega
  · rw [hfold]
    simp only [List.append_nil]
    exact (reverse_jsSliceLast 10 _).symm
  · intro hlen
    rw [hfold]
    simp only [List.append_nil, List.length_take, List.length_reverse]
    omega

/-- Witness for C3 at eleven accepted payloads. -/
theorem claim3_witness :
    (5 < (QRScannerTsx.runProcess QRScannerTsx.initState c3Events).2.length ∧
      (QRScannerTsx.runProcess QRScannerTsx.initState c3Events).1.lastScannedCodes.length = 5) ∧
    (10 < (QRScannerTsx.runProcess QRScannerTsx.initState c3Events).2.length ∧
      (List.foldl PageTsx.handleScanSuccess []
        (QRScannerTsx.runProcess QRScannerTsx.initState c3Events).2).length = 10) :=
  ⟨⟨by decide, (claim3_history_holds_most_recent c3Events).2.1 (by decide)⟩,
   ⟨by decide, (claim3_history_holds_most_recent c3Events).2.2.2 (by decide)⟩⟩

/-- Claim C4 (the code contradicts it): an uploaded image that the ZXing
decoder can read only after the 180-degree rotation — the attempt-2
transform of the retry ladder — is reported as undetected, because the
`dataUrl` snapshot passed to `decodeFromImageUrl` is taken once before the
loop and never refreshed: the decoder succeeds on the attempt-2 canvas
contents, yet `handleFileUpload` forwards nothing and shows the
"could not detect" error. -/
theorem claim4_stale_snapshot_defeats_retry_ladder :
    rot180OnlyDecoder (transformCanvas 2) = Except.ok "PAYLOAD-180" ∧
    QRScannerTsx.handleFileUpload QRScannerTsx.initState jsqrNever
        rot180OnlyDecoder 0
      = (QRScannerTsx.initState, [], true) :=
  ⟨rfl, rfl⟩

/-- Claim C5 counterexample: with decoders that never succeed, one
`handleFileUpload` of part_002 performs 16 ZXing and 16 jsQR invocations —
32 decode attempts, exceeding the stated budget of `maxAttempts` = 8. -/
theorem claim5_counterexample_32_attempts :
    Part002.uploadDecodePipeline zxAlwaysThrows jsqrNever = (none, 16, 16) ∧
    Part002.maxAttempts = 8 ∧ 8 < 16 + 16 :=
  ⟨rfl, rfl, by decide⟩

/-- Claim C5 (amended): each retry while-loop is bounded by
`maxAttempts` = 8 iterations and stops at the first successful decode; the
QRScanner.tsx ladder therefore performs at most 8 ZXing invocations
(exactly 1 on an immediate success, exactly 8 on total failure), while
part_002 runs the loop twice with two decoder invocations per iteration, so
one upload performs at most 32 decoder invocations in total. -/
theorem claim5_amended_attempt_budget :
    (∀ (zx : CanvasImage → Except Unit String) (d canvas : CanvasImage),
        (QRScannerTsx.zxingLadder zx d canvas).2.1 ≤ QRScannerTsx.maxAttempts) ∧
    (∀ (zx : CanvasImage → Except Unit String) (d canvas : CanvasImage) (r : String),
        zx d = Except.ok r →
        QRScannerTsx.zxingLadder zx d canvas = (some r, 1, canvas)) ∧
    (∀ (zx : CanvasImage → Except Unit String) (d canvas : CanvasImage) (u : Unit),
        zx d = Except.error u →
        (QRScannerTsx.zxingLadder zx d canvas).1 = none ∧
        (QRScannerTsx.zxingLadder zx d canvas).2.1 = QRScannerTsx.maxAttempts) ∧
    (∀ (zx : CanvasImage → Except Unit String) (jq : CanvasImage → Option String),
        (Part002.uploadDecodePipeline zx jq).2.1
          + (Part002.uploadDecodePipeline zx jq).2.2 ≤ 32) ∧
    (∀ (zx : CanvasImage → Except Unit String) (jq : CanvasImage → Option String)
        (r : String),
        zx CanvasImage.original = Except.ok r →
        Part002.uploadDecodePipeline zx jq = (some r, 1, 0)) := by
  refine ⟨?_, ?_, ?_, ?_, ?_⟩
  · intro zx d canvas
    exact ladderGo_calls_le zx d QRScannerTsx.maxAttempts 0 canvas
  · intro zx d canvas r h
    show QRScannerTsx.ladderGo zx d 0 QRScannerTsx.maxAttempts canvas
      = (some r, 1, canvas)
    rw [show QRScannerTsx.maxAttempts = 7 + 1 from rfl]
    simp [QRScannerTsx.ladderGo, h]
  · intro zx d canvas u h
    exact ladderGo_all_error zx d u h QRScannerTsx.maxAttempts 0 canvas
  · intro zx jq
    have h1 := part002_ladderGo_calls_le zx jq CanvasImage.original
      Part002.maxAttempts 0 CanvasImage.original
    simp only [Part002.uploadDecodePipeline]
    split
    · simp only [show Part002.maxAttempts = 8 from rfl] at h1 ⊢
      omega
    · have h2 := part002_ladderGo_calls_le zx jq
        (CanvasImage.grayscaleOf
          (Part002.ladderGo zx jq CanvasImage.original 0 Part002.maxAttempts
            CanvasImage.original).2.2.2)
        Part002.maxAttempts 0
        (CanvasImage.grayscaleOf
          (Part002.ladderGo zx jq CanvasImage.original 0 Part002.maxAttempts
            CanvasImage.original).2.2.2)
      simp only [show Part002.maxAttempts = 8 from rfl] at h1 h2 ⊢
      omega
  · intro zx jq r h
    simp only [Part002.uploadDecodePipeline,
      show Part002.maxAttempts = 7 + 1 from rfl]
    simp [Part002.ladderGo, h]

/-- Witness for the amended C5 at concrete decoders: an immediate success
makes exactly one invocation, total failure uses the whole budget. -/
theorem claim5_amended_witness :
    (zxImmediate CanvasImage.grayContrast = Except.ok "Z" ∧
      QRScannerTsx.zxingLadder zxImmediate CanvasImage.grayContrast
          CanvasImage.grayContrast
        = (some "Z", 1, CanvasImage.grayContrast)) ∧
    (zxAlwaysThrows CanvasImage.grayContrast = Except.error () ∧
      (QRScannerTsx.zxingLadder zxAlwaysThrows CanvasImage.grayContrast
          CanvasImage.original).1 = none ∧
      (QRScannerTsx.zxingLadder zxAlwaysThrows CanvasImage.grayContrast
          CanvasImage.original).2.1 = QRScannerTsx.maxAttempts) ∧
    (zxImmediate CanvasImage.original = Except.ok "Z" ∧
      Part002.uploadDecodePipeline zxImmediate jsqrNever = (some "Z", 1, 0)) :=
  ⟨⟨rfl, claim5_amended_attempt_budget.2.1 zxImmediate
      CanvasImage.grayContrast CanvasImage.grayContrast "Z" rfl⟩,
   ⟨rfl, claim5_amended_attempt_budget.2.2.1 zxAlwaysThrows
      CanvasImage.grayContrast CanvasImage.original () rfl⟩,
   ⟨rfl, claim5_amended_attempt_budget.2.2.2.2 zxImmediate jsqrNever "Z" rfl⟩⟩

/-- Claim C6 counterexample: after payload A is accepted and the camera is
stopped — which clears the session set while the displayed history and the
cooldown fields persist — re-scanning A once the 5000 ms cooldown has
elapsed passes every check of the original claim and is accepted again:
it is forwarded, the session set gains it and the cooldown state is
updated; yet part_001 line 99 skips the history push because A is still
displayed, so the history is unchanged and differs from the claimed
pushed-with-eviction history.  The fourth claimed effect does not occur. -/
theorem claim6_counterexample_history_push_skipped :
    (c6CexState.processingCode = false ∧
      "A" ∉ c6CexState.sessionScannedCodes ∧
      ¬("A" = c6CexState.lastScannedCode ∧
        ((6000 : Nat) : Int) - (c6CexState.lastScanTimestamp : Int)
          < Part001.cooldownWindow)) ∧
    ((Part001.processScannedCode c6CexState "A" 6000).2 = ["A"] ∧
      (Part001.processScannedCode c6CexState "A" 6000).1.sessionScannedCodes
        = ["A"] ∧
      (Part001.processScannedCode c6CexState "A" 6000).1.lastScannedCode = "A" ∧
      (Part001.processScannedCode c6CexState "A" 6000).1.lastScanTimestamp
        = 6000) ∧
    (Part001.processScannedCode c6CexState "A" 6000).1.scannedCodes
      = c6CexState.scannedCodes ∧
    (Part001.processScannedCode c6CexState "A" 6000).1.scannedCodes
      ≠ jsSliceLast 12 (c6CexState.scannedCodes ++ ["A"]) := by
  decide

/-- Claim C6 (amended): an accepted decode result (one that passes the
cooldown and the session-dedup checks) always produces three of the effects
in the same invocation — the payload joins the session scan set, the
cooldown state becomes (payload, now) and the payload is forwarded to the
Result Sink exactly once — and is pushed onto the bounded recent history
(oldest evicted beyond 12) exactly when it is not already displayed; a
payload still present in the history (possible after a session restart
cleared the session set but not the history) leaves the history
unchanged. -/
theorem claim6_amended_accept_effects
    (s : Part001.OrchState) (code : String) (now : Nat)
    (hflag : s.processingCode = false)
    (hcool : ¬(code = s.lastScannedCode ∧
        (now : Int) - (s.lastScanTimestamp : Int) < Part001.cooldownWindow))
    (hsession : code ∉ s.sessionScannedCodes) :
    (Part001.processScannedCode s code now).1.sessionScannedCodes
        = s.sessionScannedCodes ++ [code] ∧
    (Part001.processScannedCode s code now).1.lastScannedCode = code ∧
    (Part001.processScannedCode s code now).1.lastScanTimestamp = now ∧
    (Part001.processScannedCode s code now).2 = [code] ∧
    (Part001.processScannedCode s code now).1.scannedCodes
        = (if code ∈ s.scannedCodes then s.scannedCodes
           else jsSliceLast 12 (s.scannedCodes ++ [code])) := by
  refine ⟨?_, ?_, ?_, ?_, ?_⟩ <;>
    by_cases hmem : code ∈ s.scannedCodes <;>
      simp [Part001.processScannedCode, hflag, hcool, hsession, hmem,
        setAdd_of_not_mem hsession]

/-- Witness for the amended C6: payload B accepted at t = 1500 after A —
B is not displayed yet, so the history push happens. -/
theorem claim6_amended_witness :
    (c6State.processingCode = false ∧
      ¬("B" = c6State.lastScannedCode ∧
        ((1500 : Nat) : Int) - (c6State.lastScanTimestamp : Int)
          < Part001.cooldownWindow) ∧
      "B" ∉ c6State.sessionScannedCodes) ∧
    ((Part001.processScannedCode c6State "B" 1500).1.sessionScannedCodes
        = c6State.sessionScannedCodes ++ ["B"] ∧
      (Part001.processScannedCode c6State "B" 1500).1.lastScannedCode = "B" ∧
      (Part001.processScannedCode c6State "B" 1500).1.lastScanTimestamp = 1500 ∧
      (Part001.processScannedCode c6State "B" 1500).2 = ["B"] ∧
      (Part001.processScannedCode c6State "B" 1500).1.scannedCodes
        = (if "B" ∈ c6State.scannedCodes then c6State.scannedCodes
           else jsSliceLast 12 (c6State.scannedCodes ++ ["B"]))) :=
  ⟨⟨rfl, by decide, by decide⟩,
   claim6_amended_accept_effects c6State "B" 1500 rfl (by decide) (by decide)⟩

/-- Claim C7: a frame containing no decodable symbol leaves the session
scan set, the recent history and the cooldown state unchanged and never
invokes the Result Sink — for the part_001 `scanCode` step (a no-symbol
frame makes `decodeFromCanvas` throw NotFoundException), the QRScanner.tsx
jsQR path and the ZXing video callback with an empty result. -/
theorem claim7_no_symbol_frame_is_noop :
    (∀ (s : Part001.OrchState) (tPerf tDate : Nat),
        (Part001.scanCode s Part001.DecodeOutcome.notFoundExn tPerf tDate).1.sessionScannedCodes
          = s.sessionScannedCodes ∧
        (Part001.scanCode s Part001.DecodeOutcome.notFoundExn tPerf tDate).1.scannedCodes
          = s.scannedCodes ∧
        (Part001.scanCode s Part001.DecodeOutcome.notFoundExn tPerf tDate).1.lastScannedCode
          = s.lastScannedCode ∧
        (Part001.scanCode s Part001.DecodeOutcome.notFoundExn tPerf tDate).1.lastScanTimestamp
          = s.lastScanTimestamp ∧
        (Part001.scanCode s Part001.DecodeOutcome.notFoundExn tPerf tDate).2.1 = []) ∧
    (∀ (s : QRScannerTsx.ScannerState) (now : Nat),
        QRScannerTsx.scanWithJsQR s none now = (s, [])) ∧
    (∀ (s : QRScannerTsx.ScannerState) (error : Bool) (now : Nat),
        QRScannerTsx.decodeVideoCallback s error none now = (s, [])) := by
  refine ⟨?_, ?_, ?_⟩
  · intro s tPerf tDate
    simp only [Part001.scanCode]
    split
    · simp
    · split
      · simp
      · simp
  · intro s now
    by_cases h : s.isScanning <;> simp [QRScannerTsx.scanWithJsQR, h]
  · intro s error now
    by_cases h : error <;> simp [QRScannerTsx.decodeVideoCallback, h]

/-- Claim C8: every exception thrown by a decoder invocation is caught
inside the orchestrator and treated as a transient miss for that attempt:
the state after the failed attempt is exactly the state of a tick that
performed no decode at all (only the frame counter of the cadence gate
advanced), nothing is forwarded, the animation-frame loop is re-armed —
and on the static-image path an all-throwing decoder produces the explicit
"could not detect" status, never an exception, at the Result Sink
boundary. -/
theorem claim8_decoder_exceptions_contained :
    (∀ (s : Part001.OrchState) (tPerf tDate : Nat),
        Part001.scanCode s Part001.DecodeOutcome.notFoundExn tPerf tDate
          = (if s.isScanningRef then s
             else { s with frameCount := s.frameCount + 1 }, [], true)) ∧
    (∀ (s : Part001.OrchState) (tPerf tDate : Nat),
        Part001.scanCode s Part001.DecodeOutcome.otherExn tPerf tDate
          = (if s.isScanningRef then s
             else { s with frameCount := s.frameCount + 1 }, [], true)) ∧
    (∀ (s : QRScannerTsx.ScannerState) (now : Nat),
        QRScannerTsx.handleFileUpload s jsqrNever zxAlwaysThrows now
          = (s, [], true)) := by
  refine ⟨?_, ?_, ?_⟩
  · intro s tPerf tDate
    obtain ⟨sc, lc, lt, ss, pc, fc, lst, isr⟩ := s
    cases isr <;> simp only [Part001.scanCode] <;> split <;> simp_all
  · intro s tPerf tDate
    obtain ⟨sc, lc, lt, ss, pc, fc, lst, isr⟩ := s
    cases isr <;> simp only [Part001.scanCode] <;> split <;> simp_all
  · intro s now
    rfl

/-- Claim C9: at most one decode invocation is ever outstanding: in every
state the scan loop can reach, the in-flight counter is at most 1, and a
cadence tick that fires while a decode is in flight is a no-op (the state
is returned unchanged — the tick is dropped, not queued). -/
theorem claim9_at_most_one_decode_in_flight :
    (∀ s : Part001.LoopState, Part001.Reachable s → s.outstanding ≤ 1) ∧
    (∀ (s : Part001.LoopState) (tPerf : Nat),
        s.orch.isScanningRef = true → Part001.tick s tPerf = s) := by
  constructor
  · intro s hs
    have h := loop_outstanding_eq_flag hs
    split at h <;> omega
  · intro s tPerf h
    simp [Part001.tick, h]

/-- Witness for C9: the initial loop state is reachable with at most one
decode in flight, and a tick on a busy state is dropped unchanged. -/
theorem claim9_witness :
    (Part001.Reachable Part001.loopInit ∧ Part001.loopInit.outstanding ≤ 1) ∧
    (busyLoopState.orch.isScanningRef = true ∧
      Part001.tick busyLoopState 0 = busyLoopState) :=
  ⟨⟨Part001.Reachable.init,
    claim9_at_most_one_decode_in_flight.1 Part001.loopInit Part001.Reachable.init⟩,
   ⟨rfl, claim9_at_most_one_decode_in_flight.2 busyLoopState 0 rfl⟩⟩

/-- Claim C10: any acceptance clears the scanning flag and schedules the
resume 1000 ms later (`pauseScanning`), and while the flag is down every
decoder result — including payloads never seen before — is discarded by
the camera paths without touching any state or calling the Result Sink, in
the QRScanner.tsx jsQR loop and ZXing callback and in the part_002 ZXing
callback alike. -/
theorem claim10_pause_suppression_is_global :
    (∀ (s : QRScannerTsx.ScannerState) (code : String) (now : Nat),
        s.processingCode = false → code ∉ s.sessionScannedCodes →
        (QRScannerTsx.processScannedCode s code now).1.isScanning = false ∧
        (QRScannerTsx.processScannedCode s code now).1.resumeTimer
          = some (now + 1000)) ∧
    (∀ (s : QRScannerTsx.ScannerState) (error : Bool) (result : Option String)
        (now : Nat), s.isScanning = false →
        QRScannerTsx.decodeVideoCallback s error result now = (s, [])) ∧
    (∀ (s : QRScannerTsx.ScannerState) (decoded : Option String) (now : Nat),
        s.isScanning = false →
        QRScannerTsx.scanWithJsQR s decoded now = (s, [])) ∧
    (∀ (s : QRScannerTsx.ScannerState) (error : Bool) (result : Option String)
        (now : Nat), s.isScanning = false →
        Part002.decodeVideoCallback s error result now = (s, [])) := by
  refine ⟨?_, ?_, ?_, ?_⟩
  · intro s code now h1 h2
    constructor <;> simp [QRScannerTsx.processScannedCode, h1, h2]
  · intro s error result now h
    cases result <;> by_cases he : error <;>
      simp [QRScannerTsx.decodeVideoCallback, he, h]
  · intro s decoded now h
    simp [QRScannerTsx.scanWithJsQR, h]
  · intro s error result now h
    cases result <;> by_cases he : error <;>
      simp [Part002.decodeVideoCallback, he, h]

/-- Witness for C10: an acceptance pauses scanning with the timer at
now + 1000, and a brand-new payload arriving during the pause is dropped by
every camera path. -/
theorem claim10_witness :
    (QRScannerTsx.initState.processingCode = false ∧
      "A" ∉ QRScannerTsx.initState.sessionScannedCodes ∧
      (QRScannerTsx.processScannedCode QRScannerTsx.initState "A" 0).1.isScanning = false ∧
      (QRScannerTsx.processScannedCode QRScannerTsx.initState "A" 0).1.resumeTimer
        = some (0 + 1000)) ∧
    (c10State.isScanning = false ∧
      QRScannerTsx.decodeVideoCallback c10State false (some "NEW") 7 = (c10State, []) ∧
      QRScannerTsx.scanWithJsQR c10State (some "NEW") 7 = (c10State, []) ∧
      Part002.decodeVideoCallback c10State false (some "NEW") 7 = (c10State, [])) :=
  ⟨⟨rfl, by decide,
    (claim10_pause_suppression_is_global.1 QRScannerTsx.initState "A" 0 rfl
      (by decide)).1,
    (claim10_pause_suppression_is_global.1 QRScannerTsx.initState "A" 0 rfl
      (by decide)).2⟩,
   ⟨rfl,
    claim10_pause_suppression_is_global.2.1 c10State false (some "NEW") 7 rfl,
    claim10_pause_suppression_is_global.2.2.1 c10State (some "NEW") 7 rfl,
    claim10_pause_suppression_is_global.2.2.2 c10State false (some "NEW") 7 rfl⟩⟩

end QrScan
